import Mathlib

/-!
Shallow embedding of the MohallaHub backend's OTP authentication flow,
access guard, geohash encoder, neighborhood resolver and slug derivation,
with theorems checking the specification's claims against the code.

JavaScript `undefined` is modelled with `Option`; a thrown `TypeError` is
modelled by returning `none` from a function whose result type is wrapped
in `Option`; millisecond timestamps are `Nat`; the output of `Math.random()`
(a draw in `[0,1)`) is an explicit parameter `r : ℚ`.
-/

namespace MohallaHub

/-- The embedded OTP subdocument of the user schema (`otp: { code, expiresAt,
attempts }` in the User model).  `code` and `expiresAt` may be unset. -/
structure OtpChallenge where
  code : Option String
  expiresAt : Option Nat
  attempts : Nat
deriving DecidableEq, Repr

/-- The user document fields relevant to the authentication flow.  `otp = none`
models a document whose `otp` path is `undefined` (as after
`this.otp = undefined`). -/
structure User where
  phone : String
  name : String
  language : String
  isPhoneVerified : Bool
  isAddressVerified : Bool
  status : String
  otp : Option OtpChallenge
deriving DecidableEq, Repr

/-- JavaScript falsiness of an optional string (`!x` is true for `undefined`
and for the empty string). -/
def strFalsy : Option String → Bool
  | none => true
  | some s => s.isEmpty

/-- The `{ valid, message }` record returned by `userSchema.methods.verifyOTP`. -/
structure OtpCheck where
  valid : Bool
  message : String
deriving DecidableEq, Repr

def noOtpFound : OtpCheck := ⟨false, "No OTP found"⟩

def maxAttempts : OtpCheck := ⟨false, "Maximum attempts exceeded"⟩

def otpExpired : OtpCheck := ⟨false, "OTP expired"⟩

def invalidOtp : OtpCheck := ⟨false, "Invalid OTP"⟩

def otpVerified : OtpCheck := ⟨true, "OTP verified successfully"⟩

/-- `userSchema.methods.verifyOTP(otpCode)`.  The result is the mutated user
together with the returned record; the outer `Option` is `none` exactly when
the method throws: `this.otp.code` dereferences `undefined` when the `otp`
path is absent.  `new Date() > this.otp.expiresAt` is `e < now`. -/
def verifyOTP (u : User) (otpCode : String) (now : Nat) : Option (User × OtpCheck) :=
  match u.otp with
  | none => none
  | some o =>
    if strFalsy o.code || o.expiresAt.isNone then
      some (u, noOtpFound)
    else if 3 ≤ o.attempts then
      some (u, maxAttempts)
    else if o.expiresAt.getD 0 < now then
      some (u, otpExpired)
    else if o.code ≠ some otpCode then
      some ({ u with otp := some { o with attempts := o.attempts + 1 } }, invalidOtp)
    else
      some ({ u with isPhoneVerified := true, otp := none }, otpVerified)

/-- Claim C1: `verifyOTP` checks its conditions in order — no challenge on
record, then attempts already ≥ 3, then expiry, then code mismatch (with the
attempt counter incremented), and otherwise succeeds, setting phone-verified
and clearing the challenge.  The second conjunct holds with no non-expiry
hypothesis: the attempts check precedes the expiry check. -/
theorem verifyOTP_checks_in_order (u : User) (o : OtpChallenge) (c : String) (now : Nat)
    (h : u.otp = some o) :
    ((strFalsy o.code = true ∨ o.expiresAt = none) →
        verifyOTP u c now = some (u, noOtpFound)) ∧
    (strFalsy o.code = false → o.expiresAt.isSome = true → 3 ≤ o.attempts →
        verifyOTP u c now = some (u, maxAttempts)) ∧
    (∀ e, strFalsy o.code = false → o.expiresAt = some e → o.attempts < 3 → e < now →
        verifyOTP u c now = some (u, otpExpired)) ∧
    (∀ e, strFalsy o.code = false → o.expiresAt = some e → o.attempts < 3 → now ≤ e →
        o.code ≠ some c →
        verifyOTP u c now =
          some ({ u with otp := some { o with attempts := o.attempts + 1 } }, invalidOtp)) ∧
    (∀ e, strFalsy o.code = false → o.expiresAt = some e → o.attempts < 3 → now ≤ e →
        o.code = some c →
        verifyOTP u c now =
          some ({ u with isPhoneVerified := true, otp := none }, otpVerified)) := by
  refine ⟨?_, ?_, ?_, ?_, ?_⟩
  · rintro (hc | he)
    · simp [verifyOTP, h, hc]
    · simp [verifyOTP, h, he]
  · intro hc he ha
    obtain ⟨e, he'⟩ := Option.isSome_iff_exists.mp he
    simp [verifyOTP, h, hc, he', ha]
  · intro e hc he ha hex
    simp [verifyOTP, h, hc, he, Nat.not_le.mpr ha, hex]
  · intro e hc he ha hnex hne
    simp [verifyOTP, h, hc, he, Nat.not_le.mpr ha, Nat.not_lt.mpr hnex, hne]
  · intro e hc he ha hnex heq
    rw [heq] at hc
    simp [verifyOTP, h, he, heq, hc, Nat.not_le.mpr ha, Nat.not_lt.mpr hnex]

/-- A user with an outstanding, unexpired challenge, used to instantiate
hypotheses in witnesses. -/
def demoUser : User :=
  ⟨"9876543210", "Asha", "en", false, false, "active",
    some ⟨some "123456", some 600000, 0⟩⟩

/-- Witness for C1: on `demoUser` the success branch fires with the stored
code before the expiry. -/
theorem verifyOTP_checks_in_order_witness :
    verifyOTP demoUser "123456" 5 =
      some ({ demoUser with isPhoneVerified := true, otp := none }, otpVerified) :=
  (verifyOTP_checks_in_order demoUser ⟨some "123456", some 600000, 0⟩ "123456" 5
      rfl).2.2.2.2 600000 rfl rfl (by decide) (by decide) rfl

/-- The digit list produced by `Nat.toDigitsCore` only grows the accumulator. -/
theorem toDigitsCore_length_mono (b : Nat) :
    ∀ (fuel n : Nat) (ds : List Char), ds.length ≤ (Nat.toDigitsCore b fuel n ds).length := by
  intro fuel
  induction fuel with
  | zero => intro n ds; simp [Nat.toDigitsCore]
  | succ f ih =>
    intro n ds
    rw [Nat.toDigitsCore]
    split
    · simp
    · exact le_trans (by simp) (ih _ _)

/-- `Nat.toDigits` never returns the empty list. -/
theorem toDigits_ne_nil (b n : Nat) : Nat.toDigits b n ≠ [] := by
  intro hcontra
  have hlen : 1 ≤ (Nat.toDigits b n).length := by
    rw [Nat.toDigits, Nat.toDigitsCore]
    split
    · simp
    · exact le_trans (by simp) (toDigitsCore_length_mono b _ _ _)
  rw [hcontra] at hlen
  simp at hlen

/-- The decimal representation of a natural number is a nonempty string. -/
theorem repr_isEmpty_false (n : Nat) : (Nat.repr n).isEmpty = false := by
  rw [Bool.eq_false_iff]
  intro hT
  have h2 : Nat.repr n = "" := (String.isEmpty_iff _).mp hT
  have h3 : Nat.toDigits 10 n = [] := by
    have := congrArg String.data h2
    simpa [Nat.repr, List.asString] using this
  exact toDigits_ne_nil 10 n h3

/-- `Math.floor(100000 + Math.random() * 900000)` with random draw `r`. -/
def otpNum (r : ℚ) : ℕ := (⌊(100000 : ℚ) + r * 900000⌋).toNat

/-- The generated OTP code string (`.toString()` of the number). -/
def otpString (r : ℚ) : String := Nat.repr (otpNum r)

/-- For any draw in `[0,1)` the generated code lies in 100000–999999. -/
theorem otpNum_range (r : ℚ) (h0 : 0 ≤ r) (h1 : r < 1) :
    100000 ≤ otpNum r ∧ otpNum r ≤ 999999 := by
  have hy0 : ((100000 : ℤ) : ℚ) ≤ (100000 : ℚ) + r * 900000 := by
    push_cast
    nlinarith
  have hy1 : (100000 : ℚ) + r * 900000 < ((1000000 : ℤ) : ℚ) := by
    push_cast
    nlinarith
  have hl : (100000 : ℤ) ≤ ⌊(100000 : ℚ) + r * 900000⌋ := Int.le_floor.mpr hy0
  have hu : ⌊(100000 : ℚ) + r * 900000⌋ < 1000000 := Int.floor_lt.mpr hy1
  unfold otpNum
  omega

/-- `userSchema.methods.generateOTP`: stores a fresh challenge (code, expiry
ten minutes ahead, attempts 0), overwriting any prior one, and returns the
plaintext code. -/
def generateOTP (u : User) (r : ℚ) (now : Nat) : String × User :=
  let otp := otpString r
  (otp, { u with otp := some ⟨some otp, some (now + 10 * 60 * 1000), 0⟩ })

/-- The OTP subdocument stored by `exports.register` for a newly created
user. -/
def registerOtp (r : ℚ) (now : Nat) : OtpChallenge :=
  ⟨some (otpString r), some (now + 10 * 60 * 1000), 0⟩

/-- The OTP update performed by `exports.login`: fresh code, expiry ten
minutes ahead, attempts 0. -/
def loginOtpUpdate (u : User) (r : ℚ) (now : Nat) : User :=
  { u with otp := some ⟨some (otpString r), some (now + 10 * 60 * 1000), 0⟩ }

/-- The OTP update performed by `exports.resendOTP`:
`attempts: user.otp ? user.otp.attempts + 1 : 1`. -/
def resendOtpUpdate (u : User) (r : ℚ) (now : Nat) : User :=
  { u with otp := some ⟨some (otpString r), some (now + 10 * 60 * 1000),
      match u.otp with
      | some o => o.attempts + 1
      | none => 1⟩ }

/-- Persistence round-trip (`save` followed by `findOne`): the ODM rehydrates
an absent nested `otp` path as an object whose `code` and `expiresAt` are
undefined and whose `attempts` carries the schema default 0 (User schema,
`otp.attempts` has `default: 0`).  A present challenge round-trips as-is. -/
def reloadUser (u : User) : User :=
  match u.otp with
  | none => { u with otp := some ⟨none, none, 0⟩ }
  | some _ => u

/-- Claim C9: `verifyOTP` throws (models to `none`) exactly on users whose
`otp` object is absent, instead of returning the no-challenge result; and the
no-challenge result is produced only when the `otp` object exists but its
`code` or `expiresAt` is unset (falsy), with the user left unchanged. -/
theorem verifyOTP_total_only_with_otp (u : User) (c : String) (now : Nat) :
    (verifyOTP u c now = none ↔ u.otp = none) ∧
    (∀ u', verifyOTP u c now = some (u', noOtpFound) →
        u' = u ∧ ∃ o, u.otp = some o ∧ (strFalsy o.code = true ∨ o.expiresAt = none)) := by
  constructor
  · cases h : u.otp with
    | none => simp [verifyOTP, h]
    | some o =>
      simp only [verifyOTP, h]
      split_ifs <;> simp
  · intro u' hres
    cases h : u.otp with
    | none =>
      rw [verifyOTP] at hres
      rw [h] at hres
      exact absurd hres (by simp)
    | some o =>
      simp only [verifyOTP, h] at hres
      refine ⟨?_, o, rfl, ?_⟩ <;>
        · revert hres
          split_ifs with h1 h2 h3 h4 <;>
            simp_all [noOtpFound, maxAttempts, otpExpired, invalidOtp, otpVerified,
              Option.isNone_iff_eq_none]

/-- Witness for C9: a user whose challenge was cleared but rehydrated with an
unset code is told there is no challenge, and is returned unchanged. -/
theorem verifyOTP_total_only_with_otp_witness :
    reloadUser { demoUser with otp := none } = reloadUser { demoUser with otp := none } ∧
    ∃ o, (reloadUser { demoUser with otp := none }).otp = some o ∧
      (strFalsy o.code = true ∨ o.expiresAt = none) :=
  (verifyOTP_total_only_with_otp (reloadUser { demoUser with otp := none }) "123456" 0).2
    (reloadUser { demoUser with otp := none }) (by decide)

/-- Claim C2: starting from a fresh unexpired challenge, three wrong codes
drive the attempt counter to 3; thereafter every call — any code, any time,
including the correct code — returns the attempts-exceeded result and leaves
the user unchanged, until a new challenge is issued (after which the new code
verifies within its window). -/
theorem otp_exhaustion (u : User) (code : String) (exp : Nat)
    (c1 c2 c3 : String) (n1 n2 n3 : Nat)
    (h : u.otp = some ⟨some code, some exp, 0⟩) (hcode : code ≠ "")
    (hc1 : c1 ≠ code) (hc2 : c2 ≠ code) (hc3 : c3 ≠ code)
    (hn1 : n1 ≤ exp) (hn2 : n2 ≤ exp) (hn3 : n3 ≤ exp) :
    verifyOTP u c1 n1
      = some ({ u with otp := some ⟨some code, some exp, 1⟩ }, invalidOtp) ∧
    verifyOTP { u with otp := some ⟨some code, some exp, 1⟩ } c2 n2
      = some ({ u with otp := some ⟨some code, some exp, 2⟩ }, invalidOtp) ∧
    verifyOTP { u with otp := some ⟨some code, some exp, 2⟩ } c3 n3
      = some ({ u with otp := some ⟨some code, some exp, 3⟩ }, invalidOtp) ∧
    (∀ c now, verifyOTP { u with otp := some ⟨some code, some exp, 3⟩ } c now
      = some ({ u with otp := some ⟨some code, some exp, 3⟩ }, maxAttempts)) ∧
    (∀ r now4 now5, now5 ≤ now4 + 600000 →
      verifyOTP (generateOTP { u with otp := some ⟨some code, some exp, 3⟩ } r now4).2
          (otpString r) now5
        = some ({ u with isPhoneVerified := true, otp := none }, otpVerified)) := by
  have hne : code.isEmpty = false := by
    rw [Bool.eq_false_iff]
    intro hT
    exact hcode ((String.isEmpty_iff _).mp hT)
  refine ⟨?_, ?_, ?_, ?_, ?_⟩
  · simp [verifyOTP, h, strFalsy, hne, Nat.not_lt.mpr hn1, Ne.symm hc1]
  · simp [verifyOTP, strFalsy, hne, Nat.not_lt.mpr hn2, Ne.symm hc2]
  · simp [verifyOTP, strFalsy, hne, Nat.not_lt.mpr hn3, Ne.symm hc3]
  · intro c now
    simp [verifyOTP, strFalsy, hne]
  · intro r now4 now5 hn5
    have : ¬ (now4 + 10 * 60 * 1000 < now5) := by omega
    simp [generateOTP, verifyOTP, strFalsy, repr_isEmpty_false, otpString, this]

/-- Witness for C2: three wrong codes on `demoUser` exhaust the challenge. -/
theorem otp_exhaustion_witness :
    verifyOTP demoUser "000000" 1
      = some ({ demoUser with otp := some ⟨some "123456", some 600000, 1⟩ }, invalidOtp) :=
  (otp_exhaustion demoUser "123456" 600000 "000000" "111111" "222222" 1 2 3
    rfl (by decide) (by decide) (by decide) (by decide)
    (by decide) (by decide) (by decide)).1

/-- Claim C3: issuing an OTP and immediately verifying with the returned code
succeeds (setting phone-verified and clearing the challenge); a second
verification with the same code against the persisted-and-reloaded user fails
with the no-challenge result, so the code cannot be replayed. -/
theorem otp_no_replay (u : User) (r : ℚ) (now now2 now3 : Nat)
    (hn : now2 ≤ now + 600000) :
    verifyOTP (generateOTP u r now).2 (generateOTP u r now).1 now2
      = some ({ u with isPhoneVerified := true, otp := none }, otpVerified) ∧
    verifyOTP (reloadUser { u with isPhoneVerified := true, otp := none })
        (generateOTP u r now).1 now3
      = some (reloadUser { u with isPhoneVerified := true, otp := none }, noOtpFound) := by
  constructor
  · have : ¬ (now + 10 * 60 * 1000 < now2) := by omega
    simp [generateOTP, verifyOTP, strFalsy, repr_isEmpty_false, otpString, this]
  · simp [generateOTP, reloadUser, verifyOTP, strFalsy]

/-- Witness for C3: a concrete issue–verify–replay round on `demoUser`. -/
theorem otp_no_replay_witness :
    verifyOTP (generateOTP demoUser 0 0).2 (generateOTP demoUser 0 0).1 5
      = some ({ demoUser with isPhoneVerified := true, otp := none }, otpVerified) ∧
    verifyOTP (reloadUser { demoUser with isPhoneVerified := true, otp := none })
        (generateOTP demoUser 0 0).1 7
      = some (reloadUser { demoUser with isPhoneVerified := true, otp := none },
          noOtpFound) :=
  otp_no_replay demoUser 0 0 5 7 (by omega)

/-- Counterexample to claim C4 as stated: the resend path does not reset the
attempt counter to 0.  On a user holding a challenge with 0 attempts,
`exports.resendOTP` stores attempts 1 (`user.otp ? user.otp.attempts + 1 : 1`). -/
theorem resend_does_not_reset_attempts :
    ¬ ((resendOtpUpdate demoUser (1 / 2) 0).otp.map OtpChallenge.attempts = some 0) := by
  simp [resendOtpUpdate, demoUser]

/-- Claim C4 (amended): on every issuance path the stored code lies in
100000–999999 for any random draw in `[0,1)`, the expiry is exactly ten
minutes ahead, and any prior challenge is overwritten; registration and login
reset the attempt counter to 0, while resend sets it to the prior counter
plus one (1 when no prior challenge exists). -/
theorem otp_issue_paths (u : User) (r : ℚ) (now : Nat) (h0 : 0 ≤ r) (h1 : r < 1) :
    (100000 ≤ otpNum r ∧ otpNum r ≤ 999999) ∧
    (generateOTP u r now).2.otp = some ⟨some (otpString r), some (now + 600000), 0⟩ ∧
    registerOtp r now = ⟨some (otpString r), some (now + 600000), 0⟩ ∧
    (loginOtpUpdate u r now).otp = some ⟨some (otpString r), some (now + 600000), 0⟩ ∧
    (resendOtpUpdate u r now).otp = some ⟨some (otpString r), some (now + 600000),
        match u.otp with
        | some o => o.attempts + 1
        | none => 1⟩ := by
  refine ⟨otpNum_range r h0 h1, ?_, ?_, ?_, ?_⟩ <;>
    simp [generateOTP, registerOtp, loginOtpUpdate, resendOtpUpdate]

/-- Witness for C4 (amended): the range conjunct at the draw 1/2. -/
theorem otp_issue_paths_witness :
    100000 ≤ otpNum (1 / 2) ∧ otpNum (1 / 2) ≤ 999999 :=
  (otp_issue_paths demoUser (1 / 2) 0 (by norm_num) (by norm_num)).1

/-- A request as seen by the middleware: the optional `Authorization` header,
the optional `token` cookie, and the route path. -/
structure Request where
  authorization : Option String
  cookieToken : Option String
  path : String
deriving DecidableEq, Repr

/-- Outcome of the access guard: an HTTP rejection with status and message, or
proceeding with the resolved user attached to the request context. -/
inductive GuardResult where
  | reject (status : Nat) (message : String)
  | proceed (user : User)
deriving DecidableEq, Repr

/-- JS `s.split(' ')` on the character list: splits at every single space,
keeping empty pieces. -/
def splitSpaces : List Char → List (List Char)
  | [] => [[]]
  | c :: rest =>
    if c = ' ' then [] :: splitSpaces rest
    else
      match splitSpaces rest with
      | [] => [[c]]
      | w :: ws => (c :: w) :: ws

/-- Token extraction in `exports.protect`: a truthy `Authorization` header
starting with `Bearer` is split on spaces and its second part taken; otherwise
the `token` cookie is used. -/
def extractToken (req : Request) : Option String :=
  match req.authorization with
  | some a =>
    if "Bearer".data.isPrefixOf a.data then
      ((splitSpaces a.data).get? 1).map List.asString
    else req.cookieToken
  | none => req.cookieToken

/-- `exports.protect`, with the environment passed explicitly: `decode` models
`jwt.verify` (`none` when it throws, e.g. an invalid or expired token) and
`findById` models the user lookup. -/
def protect (decode : String → Option Nat) (findById : Nat → Option User)
    (req : Request) : GuardResult :=
  let token := extractToken req
  if strFalsy token then
    .reject 401 "Not authorized to access this route"
  else
    match decode (token.getD "") with
    | none => .reject 401 "Not authorized to access this route"
    | some uid =>
      match findById uid with
      | none => .reject 401 "User no longer exists"
      | some user =>
        if user.status ≠ "active" then
          .reject 401 "Account is suspended or deleted"
        else if user.isPhoneVerified = false ∧ req.path ≠ "/update-profile" then
          .reject 403 "Please verify your phone number first"
        else
          .proceed user

/-- Claim C5: the access guard behaves as the per-request state machine — no
token 401, invalid/expired token 401, user missing 401, status not active
401, phone not verified on a non-profile-update route 403, otherwise proceed
with the resolved user attached. -/
theorem protect_state_machine (decode : String → Option Nat)
    (findById : Nat → Option User) (req : Request) :
    (strFalsy (extractToken req) = true →
        protect decode findById req
          = .reject 401 "Not authorized to access this route") ∧
    (∀ t, extractToken req = some t → t.isEmpty = false → decode t = none →
        protect decode findById req
          = .reject 401 "Not authorized to access this route") ∧
    (∀ t uid, extractToken req = some t → t.isEmpty = false → decode t = some uid →
        findById uid = none →
        protect decode findById req = .reject 401 "User no longer exists") ∧
    (∀ t uid u, extractToken req = some t → t.isEmpty = false → decode t = some uid →
        findById uid = some u → u.status ≠ "active" →
        protect decode findById req = .reject 401 "Account is suspended or deleted") ∧
    (∀ t uid u, extractToken req = some t → t.isEmpty = false → decode t = some uid →
        findById uid = some u → u.status = "active" → u.isPhoneVerified = false →
        req.path ≠ "/update-profile" →
        protect decode findById req
          = .reject 403 "Please verify your phone number first") ∧
    (∀ t uid u, extractToken req = some t → t.isEmpty = false → decode t = some uid →
        findById uid = some u → u.status = "active" →
        (u.isPhoneVerified = true ∨ req.path = "/update-profile") →
        protect decode findById req = .proceed u) := by
  refine ⟨?_, ?_, ?_, ?_, ?_, ?_⟩
  · intro hf
    simp [protect, hf]
  · intro t ht hne hdec
    simp [protect, ht, strFalsy, hne, hdec]
  · intro t uid ht hne hdec hfind
    simp [protect, ht, strFalsy, hne, hdec, hfind]
  · intro t uid u ht hne hdec hfind hst
    simp [protect, ht, strFalsy, hne, hdec, hfind, hst]
  · intro t uid u ht hne hdec hfind hst hpv hpath
    simp [protect, ht, strFalsy, hne, hdec, hfind, hst, hpv, hpath]
  · intro t uid u ht hne hdec hfind hst hok
    have hcond : ¬ (u.isPhoneVerified = false ∧ req.path ≠ "/update-profile") := by
      rcases hok with hpv | hpath
      · simp [hpv]
      · simp [hpath]
    simp [protect, ht, strFalsy, hne, hdec, hfind, hst, hcond]

/-- A phone-verified active user for guard witnesses. -/
def verifiedUser : User := { demoUser with isPhoneVerified := true }

/-- Token decoding environment for guard witnesses. -/
def guardDecode : String → Option Nat := fun t => if t = "tok" then some 1 else none

/-- User lookup environment for guard witnesses. -/
def guardFindById : Nat → Option User := fun i => if i = 1 then some verifiedUser else none

/-- A request carrying a valid bearer token for guard witnesses. -/
def guardRequest : Request := ⟨some "Bearer tok", none, "/posts"⟩

/-- Witness for C5: a valid token for an active, phone-verified user proceeds
with that user attached. -/
theorem protect_state_machine_witness :
    protect guardDecode guardFindById guardRequest = .proceed verifiedUser :=
  (protect_state_machine guardDecode guardFindById guardRequest).2.2.2.2.2
    "tok" 1 verifiedUser (by decide) (by decide) (by simp [guardDecode])
    (by simp [guardFindById]) (by decide) (Or.inl (by decide))

/-- The 32-symbol alphabet used by `generateGeohash` in the Neighborhood
model. -/
def geohashBase32 : List Char := "0123456789bcdefghjkmnpqrstuvwxyz".data

/-- Loop state of `generateGeohash`: the bit accumulator, the count of
accumulated bits, the active latitude/longitude bounds, and the hash built so
far. -/
structure GeoState where
  bits : Nat
  bitCount : Nat
  minLat : ℚ
  maxLat : ℚ
  minLng : ℚ
  maxLng : ℚ
  hash : List Char
deriving DecidableEq, Repr

/-- Initial bounds: latitude (−90, 90), longitude (−180, 180). -/
def geoInit : GeoState := ⟨0, 0, -90, 90, -180, 180, []⟩

/-- First half of a `generateGeohash` loop iteration at index `i`: longitude
on even iterations, latitude on odd ones; `(bits << 1) + 1` narrowing to
`[mid, max]` when the coordinate is ≥ the midpoint, else `bits << 1` narrowing
to `[min, mid]`. -/
def geoEmitBit (lat lng : ℚ) (i : Nat) (s : GeoState) : GeoState :=
  if i % 2 = 0 then
    let mid := (s.minLng + s.maxLng) / 2
    if mid ≤ lng then { s with bits := 2 * s.bits + 1, minLng := mid }
    else { s with bits := 2 * s.bits, maxLng := mid }
  else
    let mid := (s.minLat + s.maxLat) / 2
    if mid ≤ lat then { s with bits := 2 * s.bits + 1, minLat := mid }
    else { s with bits := 2 * s.bits, maxLat := mid }

/-- Second half of a loop iteration: `bitCount++`, and on reaching 5 the
accumulated bits are flushed to one alphabet character and reset. -/
def geoFlush (s : GeoState) : GeoState :=
  if s.bitCount + 1 = 5 then
    { s with
        bitCount := 0
        bits := 0
        hash := s.hash ++ [geohashBase32.getD s.bits ' '] }
  else { s with bitCount := s.bitCount + 1 }

/-- One full iteration of the `generateGeohash` loop at index `i`. -/
def geoStep (lat lng : ℚ) (i : Nat) (s : GeoState) : GeoState :=
  geoFlush (geoEmitBit lat lng i s)

/-- Runs `k` iterations of the loop starting at index `i`. -/
def geoRun (lat lng : ℚ) (i : Nat) : Nat → GeoState → GeoState
  | 0, s => s
  | k + 1, s => geoRun lat lng (i + 1) k (geoStep lat lng i s)

/-- `generateGeohash(lat, lng, precision)`: `precision * 5` iterations from
the initial bounds, the accumulated characters returned as a string. -/
def generateGeohash (lat lng : ℚ) (precision : Nat) : String :=
  (geoRun lat lng 0 (precision * 5) geoInit).hash.asString

/-- The bit-emission phase leaves the bit count and the hash unchanged. -/
theorem geoEmitBit_preserves (lat lng : ℚ) (i : Nat) (s : GeoState) :
    (geoEmitBit lat lng i s).bitCount = s.bitCount ∧
    (geoEmitBit lat lng i s).hash = s.hash := by
  simp only [geoEmitBit]
  split_ifs <;> exact ⟨rfl, rfl⟩

/-- The flush phase raises `5 * |hash| + bitCount` by exactly one and keeps
`bitCount < 5`. -/
theorem geoFlush_measure (s : GeoState) (h : s.bitCount < 5) :
    (geoFlush s).bitCount < 5 ∧
    5 * (geoFlush s).hash.length + (geoFlush s).bitCount
      = 5 * s.hash.length + s.bitCount + 1 := by
  unfold geoFlush
  split_ifs with hf
  · refine ⟨by simp, ?_⟩
    simp
    omega
  · constructor
    · simp
      omega
    · simp
      omega

/-- Each loop iteration raises `5 * |hash| + bitCount` by exactly one and
keeps `bitCount < 5`. -/
theorem geoStep_measure (lat lng : ℚ) (i : Nat) (s : GeoState) (h : s.bitCount < 5) :
    (geoStep lat lng i s).bitCount < 5 ∧
    5 * (geoStep lat lng i s).hash.length + (geoStep lat lng i s).bitCount
      = 5 * s.hash.length + s.bitCount + 1 := by
  have he := geoEmitBit_preserves lat lng i s
  have hf := geoFlush_measure (geoEmitBit lat lng i s) (by rw [he.1]; exact h)
  rw [he.1, he.2] at hf
  exact hf

/-- The measure invariant extended over any number of iterations. -/
theorem geoRun_measure (lat lng : ℚ) :
    ∀ (k i : Nat) (s : GeoState), s.bitCount < 5 →
      (geoRun lat lng i k s).bitCount < 5 ∧
      5 * (geoRun lat lng i k s).hash.length + (geoRun lat lng i k s).bitCount
        = 5 * s.hash.length + s.bitCount + k := by
  intro k
  induction k with
  | zero => intro i s h; simpa [geoRun] using h
  | succ n ih =>
    intro i s h
    have hs := geoStep_measure lat lng i s h
    have hr := ih (i + 1) (geoStep lat lng i s) hs.1
    simp only [geoRun]
    exact ⟨hr.1, by omega⟩

/-- Claim C6: the geohash encoder is a pure deterministic function: after its
`precision * 5` binary-subdivision iterations the output has exactly
`precision` characters, and two calls with the same inputs yield identical
strings. -/
theorem generateGeohash_length_deterministic (lat lng : ℚ) (precision : Nat) :
    (generateGeohash lat lng precision).length = precision ∧
    generateGeohash lat lng precision = generateGeohash lat lng precision := by
  refine ⟨?_, rfl⟩
  have h := geoRun_measure lat lng (precision * 5) 0 geoInit (by simp [geoInit])
  have h1 := h.1
  have h2 := h.2
  have hh : geoInit.hash.length = 0 := rfl
  have hb : geoInit.bitCount = 0 := rfl
  rw [hh, hb] at h2
  have hstr : ∀ l : List Char, (List.asString l).length = l.length := fun l => rfl
  simp only [generateGeohash, hstr]
  omega

/-- A coordinate pair. -/
structure Coordinates where
  latitude : ℚ
  longitude : ℚ
deriving DecidableEq, Repr

/-- A Neighborhood record as created by `exports.verifyAddress`: name, the
address fields keyed by postal code, and coordinates. -/
structure Neighborhood where
  name : String
  full : String
  pincode : String
  city : String
  state : String
  coordinates : Coordinates
deriving DecidableEq, Repr

/-- `Neighborhood.findOne({ 'location.address.pincode': pincode })` over the
stored records (first match). -/
def findByPincode (db : List Neighborhood) (pincode : String) : Option Neighborhood :=
  db.find? (fun n => n.pincode == pincode)

/-- The find-or-create sequence of `exports.verifyAddress`: reuse the record
with the given postal code as-is, or create one named `"{city} - {pincode}"`
with the supplied address fields and coordinates (zero-coordinate default when
omitted). -/
def resolveNeighborhood (db : List Neighborhood) (pincode fullAddress city st : String)
    (coordinates : Option Coordinates) : Neighborhood × List Neighborhood :=
  match findByPincode db pincode with
  | some n => (n, db)
  | none =>
    let n : Neighborhood :=
      ⟨city ++ " - " ++ pincode, fullAddress, pincode, city, st,
        coordinates.getD ⟨0, 0⟩⟩
    (n, db ++ [n])

/-- Claim C7: neighborhood resolution is idempotent in the postal code — a
second call with the same postal code (and arbitrary other fields) returns
the first call's record unchanged and creates no duplicate; when no record
exists, one is created named `"{city} - {pincode}"` with the supplied or
zero-default coordinates. -/
theorem resolveNeighborhood_idempotent (db : List Neighborhood)
    (pincode full1 city1 st1 full2 city2 st2 : String)
    (coords1 coords2 : Option Coordinates) :
    (resolveNeighborhood
        (resolveNeighborhood db pincode full1 city1 st1 coords1).2
        pincode full2 city2 st2 coords2).1
      = (resolveNeighborhood db pincode full1 city1 st1 coords1).1 ∧
    (resolveNeighborhood
        (resolveNeighborhood db pincode full1 city1 st1 coords1).2
        pincode full2 city2 st2 coords2).2
      = (resolveNeighborhood db pincode full1 city1 st1 coords1).2 ∧
    (findByPincode db pincode = none →
      (resolveNeighborhood db pincode full1 city1 st1 coords1).1.name
          = city1 ++ " - " ++ pincode ∧
      (resolveNeighborhood db pincode full1 city1 st1 coords1).1.coordinates
          = coords1.getD ⟨0, 0⟩ ∧
      (resolveNeighborhood db pincode full1 city1 st1 coords1).2
          = db ++ [(resolveNeighborhood db pincode full1 city1 st1 coords1).1]) := by
  cases h : findByPincode db pincode with
  | some n =>
    refine ⟨?_, ?_, ?_⟩ <;> simp [resolveNeighborhood, h]
  | none =>
    have hfind : findByPincode
        (db ++ [(⟨city1 ++ " - " ++ pincode, full1, pincode, city1, st1,
          coords1.getD ⟨0, 0⟩⟩ : Neighborhood)]) pincode
        = some ⟨city1 ++ " - " ++ pincode, full1, pincode, city1, st1,
          coords1.getD ⟨0, 0⟩⟩ := by
      simp only [findByPincode] at h ⊢
      simp [List.find?_append, h]
    refine ⟨?_, ?_, ?_⟩ <;> simp [resolveNeighborhood, h, hfind]

/-- Witness for C7: resolving a fresh postal code on an empty store creates
the expected record. -/
theorem resolveNeighborhood_idempotent_witness :
    (resolveNeighborhood ([] : List Neighborhood) "560034" "5th Block, Koramangala"
        "Bengaluru" "Karnataka" none).1.name = "Bengaluru" ++ " - " ++ "560034" ∧
    (resolveNeighborhood ([] : List Neighborhood) "560034" "5th Block, Koramangala"
        "Bengaluru" "Karnataka" none).1.coordinates = (none : Option Coordinates).getD ⟨0, 0⟩ ∧
    (resolveNeighborhood ([] : List Neighborhood) "560034" "5th Block, Koramangala"
        "Bengaluru" "Karnataka" none).2
      = [] ++ [(resolveNeighborhood ([] : List Neighborhood) "560034"
          "5th Block, Koramangala" "Bengaluru" "Karnataka" none).1] :=
  (resolveNeighborhood_idempotent [] "560034" "5th Block, Koramangala" "Bengaluru"
      "Karnataka" "x" "y" "z" none none).2.2 rfl

/-- Membership in the regex class `[a-z0-9]` (after lowercasing). -/
def isSlugKeep (c : Char) : Bool :=
  decide ('a' ≤ c ∧ c ≤ 'z') || decide ('0' ≤ c ∧ c ≤ '9')

/-- `.replace(/[^a-z0-9]+/g, '-')`: each maximal run of characters outside
`[a-z0-9]` becomes a single '-'.  The flag records whether the previous
character belonged to such a run. -/
def collapseRuns : Bool → List Char → List Char
  | _, [] => []
  | inRun, c :: rest =>
    if isSlugKeep c then c :: collapseRuns false rest
    else if inRun then collapseRuns true rest
    else '-' :: collapseRuns true rest

/-- One application of the regex alternative `^-`: removes a single leading
'-' when present. -/
def dropOneLeadDash : List Char → List Char
  | [] => []
  | c :: rest => if c = '-' then rest else c :: rest

/-- `.replace(/^-|-$/g, '')`: removes one leading and one trailing '-'. -/
def stripEdgeDash (l : List Char) : List Char :=
  (dropOneLeadDash ((dropOneLeadDash l).reverse)).reverse

/-- The slug derivation of the Neighborhood schema's pre-validate hook:
`name.toLowerCase().replace(/[^a-z0-9]+/g, '-').replace(/^-|-$/g, '')`
(ASCII lowercasing). -/
def slugify (name : String) : String :=
  (stripEdgeDash (collapseRuns false (name.data.map Char.toLower))).asString

/-- The slug rule as the specification words it: lowercase, collapse each
maximal non-alphanumeric run to a single separator, and strip ALL leading and
trailing separators. -/
def specSlug (name : String) : String :=
  ((((collapseRuns false (name.data.map Char.toLower)).dropWhile
      (· == '-')).reverse.dropWhile (· == '-')).reverse).asString

/-- No two adjacent dashes. -/
def NoDD (l : List Char) : Prop := l.Chain' (fun a b => ¬(a = '-' ∧ b = '-'))

theorem isSlugKeep_ne_dash {c : Char} (h : isSlugKeep c = true) : c ≠ '-' := by
  intro hc
  rw [hc] at h
  exact absurd h (by decide)

/-- With the in-run flag set, the collapsed output never starts with a dash. -/
theorem collapseRuns_true_head (l : List Char) :
    ∀ c, (collapseRuns true l).head? = some c → isSlugKeep c = true := by
  induction l with
  | nil => intro c hc; simp [collapseRuns] at hc
  | cons a t ih =>
    intro c hc
    by_cases ha : isSlugKeep a
    · rw [collapseRuns, if_pos ha] at hc
      simp at hc
      exact hc ▸ ha
    · rw [collapseRuns, if_neg ha, if_pos rfl] at hc
      exact ih c hc

/-- The collapsed output never contains two adjacent dashes. -/
theorem collapseRuns_noDD (l : List Char) : ∀ b, NoDD (collapseRuns b l) := by
  induction l with
  | nil => intro b; simp [collapseRuns, NoDD]
  | cons a t ih =>
    intro b
    by_cases ha : isSlugKeep a
    · rw [NoDD, collapseRuns, if_pos ha, List.chain'_cons']
      refine ⟨?_, ih false⟩
      intro d _
      exact fun hand => isSlugKeep_ne_dash ha hand.1
    · cases b with
      | true =>
        rw [NoDD, collapseRuns, if_neg ha, if_pos rfl]
        exact ih true
      | false =>
        rw [NoDD, collapseRuns, if_neg ha, if_neg (by simp), List.chain'_cons']
        refine ⟨?_, ih true⟩
        intro d hd
        intro hand
        have hk := collapseRuns_true_head t d hd
        exact isSlugKeep_ne_dash hk hand.2

/-- On dash-separated lists, removing one leading dash removes every leading
dash. -/
theorem noDD_dropOneLead (l : List Char) (h : NoDD l) :
    dropOneLeadDash l = l.dropWhile (· == '-') := by
  cases l with
  | nil => rfl
  | cons a t =>
    by_cases ha : a = '-'
    · subst ha
      rw [NoDD, List.chain'_cons'] at h
      cases t with
      | nil => simp [dropOneLeadDash, List.dropWhile_cons]
      | cons c t2 =>
        have hc : ¬ c = '-' := fun hc => (h.1 c (by simp)) ⟨rfl, hc⟩
        simp [dropOneLeadDash, List.dropWhile_cons, hc]
    · simp [dropOneLeadDash, ha, List.dropWhile_cons]

/-- Removing one leading dash preserves dash-separation. -/
theorem noDD_dropOneLead_noDD (l : List Char) (h : NoDD l) :
    NoDD (dropOneLeadDash l) := by
  cases l with
  | nil => exact h
  | cons a t =>
    by_cases ha : a = '-'
    · rw [dropOneLeadDash, if_pos ha]
      exact (List.chain'_cons'.mp h).2
    · rw [dropOneLeadDash, if_neg ha]
      exact h

/-- Dash-separation is symmetric under reversal. -/
theorem noDD_reverse (l : List Char) (h : NoDD l) : NoDD l.reverse := by
  rw [NoDD, List.chain'_reverse]
  have hflip : (flip fun a b : Char => ¬(a = '-' ∧ b = '-'))
      = fun a b : Char => ¬(a = '-' ∧ b = '-') := by
    funext a b
    simp [flip, and_comm]
  rw [hflip]
  exact h

/-- Claim C8: the derived slug is the lowercased name with every maximal
non-alphanumeric run collapsed to one separator and leading/trailing
separators stripped; in particular "Koramangala 5th Block!!" yields
"koramangala-5th-block". -/
theorem slug_derivation :
    (∀ name : String, slugify name = specSlug name) ∧
    slugify "Koramangala 5th Block!!" = "koramangala-5th-block" := by
  constructor
  · intro name
    unfold slugify specSlug stripEdgeDash
    have h0 : NoDD (collapseRuns false (name.data.map Char.toLower)) :=
      collapseRuns_noDD _ false
    have h1 := noDD_dropOneLead _ h0
    have h2 := noDD_dropOneLead_noDD _ h0
    have h3 := noDD_reverse _ h2
    have h4 := noDD_dropOneLead _ h3
    rw [h4, h1]
  · decide

/-- The response body of `exports.register` (status code, success flag,
message, and — on the duplicate branch — the existing account's verification
flags). -/
structure RegisterResponse where
  status : Nat
  success : Bool
  message : String
  existingUser : Option (Bool × Bool)
deriving DecidableEq, Repr

/-- JS `name || fallback`: the fallback is used when `name` is absent or
empty. -/
def jsOrName : Option String → String → String
  | none, d => d
  | some s, d => if s.isEmpty then d else s

/-- `phone.slice(-4)`: the last four characters. -/
def sliceLast4 (s : String) : String := (s.data.reverse.take 4).reverse.asString

/-- `exports.register` (public route): validation gate, duplicate-phone check
— which answers 400 and echoes the existing account's `isPhoneVerified` and
`isAddressVerified` to the unauthenticated caller without creating anything —
and otherwise creation of a new user holding a fresh OTP challenge. -/
def register (db : List User) (validationOk : Bool) (phone : String)
    (name : Option String) (language : String) (r : ℚ) (now : Nat) :
    RegisterResponse × List User :=
  if validationOk = false then
    (⟨400, false, "Validation failed", none⟩, db)
  else
    match db.find? (fun v => v.phone == phone) with
    | some existing =>
      (⟨400, false, "User already exists with this phone number",
        some (existing.isPhoneVerified, existing.isAddressVerified)⟩, db)
    | none =>
      let newUser : User :=
        ⟨phone, jsOrName name ("User" ++ sliceLast4 phone), language,
          false, false, "active", some (registerOtp r now)⟩
      (⟨201, true, "Registration successful. Please verify your phone number.",
        none⟩, db ++ [newUser])

/-- Claim C10: registering an already-registered phone creates no new user
(the store is returned unchanged) and yields a 400 response whose body carries
the existing account's phone- and address-verification flags to the
unauthenticated caller. -/
theorem register_existing_discloses_flags (db : List User) (phone : String)
    (name : Option String) (language : String) (r : ℚ) (now : Nat) (u : User)
    (hfind : db.find? (fun v => v.phone == phone) = some u) :
    register db true phone name language r now
      = (⟨400, false, "User already exists with this phone number",
          some (u.isPhoneVerified, u.isAddressVerified)⟩, db) := by
  simp [register, hfind]

/-- Witness for C10: registering `demoUser`'s phone again discloses the
stored flags and leaves the store unchanged. -/
theorem register_existing_discloses_flags_witness :
    register [demoUser] true "9876543210" none "en" 0 0
      = (⟨400, false, "User already exists with this phone number",
          some (demoUser.isPhoneVerified, demoUser.isAddressVerified)⟩, [demoUser]) :=
  register_existing_discloses_flags [demoUser] "9876543210" none "en" 0 0 demoUser
    (by simp [demoUser])

end MohallaHub
